import Mathlib

/-!
Shallow embedding of the device session manager of `src/platformAccessory.ts`
(the current `TuyaAccessory` class: response validation, dps parsing, the
TTL state cache, the connection state machine, retry scheduling, the
operation guard `safeDeviceOperation`, the refresh loop and the four
getter/setter pairs).

Modelling conventions:
* JS numbers are `ℚ` (all arithmetic in this file is exact), timestamps and
  millisecond durations are `ℕ`.
* `Math.round` is `jsRound q = ⌊q + 1/2⌋` (JS rounds half-up).
* A JS value stored in a `dps` mapping is a `DpVal`; a `dps` object is an
  association list with unique keys, looked up with `List.lookup`.
* Asynchronous device calls are modelled by an outcome parameter describing
  how the underlying promise settles (value/elapsed time, rejection message,
  or never settling); a race against the 1 s timer is a pure function of
  that outcome.  Effects that a timed-out operation would apply after the
  guard has already returned are outside the model.
* Exceptions are `Except String`; a function that the source wraps in a
  catch-all returns `.ok` in every branch, and the dead rethrow branches of
  the setters are kept so that the propagation behaviour is provable, not
  assumed.
* Log statements are dropped; the HomeKit `StatusActive` characteristic
  updates emitted on offline/online transitions are counted by the
  `offlineNotices` / `onlineNotices` fields so that notification claims are
  statable.
-/

namespace LocalTuya

/-- Source `MAX_RETRIES` from the source. -/
def MAX_RETRIES : ℕ := 3

/-- Source `BASE_RETRY_DELAY` (ms) from the source. -/
def BASE_RETRY_DELAY : ℕ := 5000

/-- Source `REFRESH_INTERVAL` (ms) from the source. -/
def REFRESH_INTERVAL : ℕ := 10000

/-- Source `MAX_RETRY_DELAY` (ms) from the source. -/
def MAX_RETRY_DELAY : ℕ := 300000

/-- Source `OPERATION_TIMEOUT` (ms) from the source. -/
def OPERATION_TIMEOUT : ℕ := 1000

/-- Source `cacheTimeout` (ms), the cache TTL field of the accessory. -/
def cacheTimeout : ℕ := 500

/-- A JS value that can sit in a `dps` mapping: boolean, number, string or
null/undefined-like junk. -/
inductive DpVal where
  | b (x : Bool)
  | n (x : ℚ)
  | s (x : String)
  | null
  deriving DecidableEq

/-- A `dps` object: an association list from dp-code keys to values. -/
abbrev Dps : Type := List (String × DpVal)

/-- A raw reply from the protocol client, as the validator sees it:
not an object at all, an object without a usable `dps` field, or an object
carrying a `dps` mapping. -/
inductive TuyaResponse where
  | notObject
  | noDps
  | withDps (dps : Dps)

/-- Source `INIT_DPS`: initialization-only dp codes from the source. -/
def INIT_DPS : List String := ["33", "35"]

/-- Keys of a dps object (`Object.keys(dps)`). -/
def dpsKeys (dps : Dps) : List String := dps.map Prod.fst

/-- JS `String.prototype.includes` on char lists: does `pat` occur as a
contiguous substring of `s`? -/
def containsSub (pat : List Char) : List Char → Bool
  | [] => pat.isEmpty
  | c :: rest => pat.isPrefixOf (c :: rest) || containsSub pat rest

/-- Source `msg.includes(pat)` for strings. -/
def strIncludes (msg pat : String) : Bool := containsSub pat.data msg.data

/-- Source `isValidResponse(response, isReconnecting)` from the source: a reply must
be an object with a `dps` object; while reconnecting, or when every present
key is an initialization-only code, it is accepted; otherwise at least one of
the four meaningful codes must be present with the right primitive type. -/
def isValidResponse (response : TuyaResponse) (isReconnecting : Bool) : Bool :=
  match response with
  | .notObject => false
  | .noDps => false
  | .withDps dps =>
    if isReconnecting || (dpsKeys dps).all (fun key => INIT_DPS.contains key) then
      true
    else
      (match dps.lookup "51" with | some (.b _) => true | _ => false) ||
      (match dps.lookup "53" with | some (.n _) => true | _ => false) ||
      (match dps.lookup "20" with | some (.b _) => true | _ => false) ||
      (match dps.lookup "22" with | some (.n _) => true | _ => false)

/-- Source `parseDpsValue(dps, key, defaultValue)` from the source: fallback when the
key is absent; strict `=== true` coercion for the on/off codes 51 and 20;
numeric clamp to [1,6] (else 1) for speed code 53; numeric clamp to
[10,1000] (else 10) for brightness code 22; fallback for any other key. -/
def parseDpsValue (dps : Dps) (key : String) (defaultValue : DpVal) : DpVal :=
  match dps.lookup key with
  | none => defaultValue
  | some value =>
    if key = "51" ∨ key = "20" then
      .b (decide (value = DpVal.b true))
    else if key = "53" then
      match value with
      | .n x => .n (max 1 (min 6 x))
      | _ => .n 1
    else if key = "22" then
      match value with
      | .n x => .n (max 10 (min 1000 x))
      | _ => .n 10
    else defaultValue

/-- Extract the boolean payload of a parse result (the parser always yields a
boolean for the on/off codes; the default is unreachable there). -/
def DpVal.getB (v : DpVal) (d : Bool) : Bool :=
  match v with
  | .b x => x
  | _ => d

/-- Extract the numeric payload of a parse result (the parser always yields a
number for the speed/brightness codes; the default is unreachable there). -/
def DpVal.getN (v : DpVal) (d : ℚ) : ℚ :=
  match v with
  | .n x => x
  | _ => d

/-- JS `Math.round`: round half toward positive infinity. -/
def jsRound (q : ℚ) : ℤ := ⌊q + 1/2⌋

/-- Native fan speed [1,6] to percent, `((speed - 1) / 5) * 100` from
`refreshState` / `getFanSpeed`. -/
def decodeFanSpeed (v : ℚ) : ℚ := ((v - 1) / 5) * 100

/-- Percent to native fan speed, `Math.round((value / 100) * 5) + 1` from
`setFanSpeed`. -/
def encodeFanSpeed (p : ℚ) : ℤ := jsRound (p / 100 * 5) + 1

/-- Native brightness [10,1000] to percent, `((brightness - 10) / 990) * 100`
from `refreshState` / `getLightBrightness`. -/
def decodeBrightness (v : ℚ) : ℚ := ((v - 10) / 990) * 100

/-- Percent to native brightness, `Math.round((value / 100) * 990) + 10` from
`setLightBrightness`. -/
def encodeBrightness (p : ℚ) : ℤ := jsRound (p / 100 * 990) + 10

/-- Evaluation rule for `jsRound` by bracketing the argument. -/
theorem jsRound_eq {q : ℚ} {z : ℤ} (h1 : (z : ℚ) ≤ q + 1/2) (h2 : q + 1/2 < z + 1) :
    jsRound q = z :=
  Int.floor_eq_iff.mpr ⟨h1, h2⟩

example : jsRound (5/2 : ℚ) = 3 := jsRound_eq (by norm_num) (by norm_num)
example : decodeFanSpeed 4 = 60 := by norm_num [decodeFanSpeed]
example : encodeBrightness 50 = 505 := by
  rw [encodeBrightness, jsRound_eq (z := 495) (by norm_num) (by norm_num)]
  norm_num
example : strIncludes "connect ETIMEDOUT 1.2.3.4" "ETIMEDOUT" = true := by decide
example : isValidResponse (.withDps [("33", .n 0)]) false = true := by decide
example : isValidResponse (.withDps [("33", .n 0), ("1", .b true)]) false = false := by decide

/-- The `DeviceState` record of the accessory (`private state`). -/
structure DeviceState where
  fanActive : Bool
  fanSpeed : ℚ
  lightOn : Bool
  lightBrightness : ℚ
  lastUpdate : ℕ
  isOnline : Bool
  retryCount : ℕ
  lastError : Option String
  lastConnectionAttempt : ℕ
  consecutiveTimeouts : ℕ

/-- The initial `DeviceState` from the field initializer of the class. -/
def initialDeviceState : DeviceState where
  fanActive := false
  fanSpeed := 0
  lightOn := false
  lightBrightness := 0
  lastUpdate := 0
  isOnline := true
  retryCount := 0
  lastError := none
  lastConnectionAttempt := 0
  consecutiveTimeouts := 0

/-- The accessory-level observable state: the `DeviceState`, the pending
retry timer's delay (`retryTimeout`, `none` when cleared), and counters for
the HomeKit StatusActive notifications emitted on the offline/online
transitions (the observable effect of `updateCharacteristic`). -/
structure AccState where
  state : DeviceState
  retryTimer : Option ℕ
  offlineNotices : ℕ
  onlineNotices : ℕ

/-- Accessory state just after construction. -/
def initialAcc : AccState where
  state := initialDeviceState
  retryTimer := none
  offlineNotices := 0
  onlineNotices := 0

/-- Source `isCacheValid()`: `Date.now() - lastUpdate < cacheTimeout`.  Truncated
`ℕ` subtraction agrees with JS here: a negative JS difference and a
truncated-to-zero difference are both `< 500`. -/
def isCacheValid (s : DeviceState) (now : ℕ) : Bool :=
  now - s.lastUpdate < cacheTimeout

/-- The connection-error test of `handleDeviceError`:
`message.includes('EHOSTUNREACH') || message.includes('ETIMEDOUT') ||
message.includes('ECONNREFUSED')`. -/
def isConnectionErrorMsg (msg : String) : Bool :=
  strIncludes msg "EHOSTUNREACH" || strIncludes msg "ETIMEDOUT" ||
    strIncludes msg "ECONNREFUSED"

/-- Source `scheduleRetry()`: with `retryCount >= MAX_RETRIES`, reset the counter
and arm a single retry at `MAX_RETRY_DELAY`; otherwise arm a retry at
`min(BASE_RETRY_DELAY * 2^retryCount, MAX_RETRY_DELAY)` (replacing any
pending timer in both branches). -/
def scheduleRetry (a : AccState) : AccState :=
  if MAX_RETRIES ≤ a.state.retryCount then
    { a with
      state := { a.state with retryCount := 0 }
      retryTimer := some MAX_RETRY_DELAY }
  else
    { a with
      retryTimer := some (min (BASE_RETRY_DELAY * 2 ^ a.state.retryCount) MAX_RETRY_DELAY) }

/-- The first statement of the retry timer callback in `scheduleRetry`:
when the armed timer fires, `retryCount` is incremented (the callback then
awaits `refreshState`, which is modelled separately and never rejects, so
the callback's own catch never re-schedules). -/
def retryTimerFire (a : AccState) : AccState :=
  { a with
    state := { a.state with retryCount := a.state.retryCount + 1 }
    retryTimer := none }

/-- Source `handleDeviceDisconnected()`: only on the online → offline edge, mark
offline, push a StatusActive=false notification and invoke the retry
scheduler; a no-op while already offline. -/
def handleDeviceDisconnected (a : AccState) : AccState :=
  if a.state.isOnline then
    scheduleRetry
      { a with
        state := { a.state with isOnline := false }
        offlineNotices := a.offlineNotices + 1 }
  else a

/-- Source `handleDeviceError(error)`: log (dropped here), and delegate to
`handleDeviceDisconnected` exactly when the message carries one of the three
connection-failure signatures.  Note: this function never touches
`consecutiveTimeouts`. -/
def handleDeviceError (a : AccState) (msg : String) : AccState :=
  if isConnectionErrorMsg msg then handleDeviceDisconnected a else a

/-- Source `handleDeviceConnected()`: only on the offline → online edge, mark
online, reset `retryCount`, push a StatusActive=true notification and clear
the pending retry timer; a no-op while already online. -/
def handleDeviceConnected (a : AccState) : AccState :=
  if !a.state.isOnline then
    { a with
      state := { a.state with isOnline := true, retryCount := 0 }
      retryTimer := none
      onlineNotices := a.onlineNotices + 1 }
  else a

/-- How the promise of a guarded operation settles: resolves after
`elapsed` ms having applied `effect`, rejects after `elapsed` ms with a
message, or never settles. -/
inductive OpSpec (α : Type) where
  | ok (elapsed : ℕ) (effect : AccState → AccState × α)
  | fail (elapsed : ℕ) (msg : String)
  | hang

/-- Whether an operation outcome is a failed device write (rejection or a
write that never completes). -/
def OpSpec.isFailure {α : Type} : OpSpec α → Bool
  | .ok _ _ => false
  | .fail _ _ => true
  | .hang => true

/-- Source `Promise.race([operation(), timeoutPromise])` inside
`safeDeviceOperation`: the operation wins iff it settles strictly before the
`OPERATION_TIMEOUT` timer; otherwise the caught error is the timer's
`'Operation timed out'`.  A rejection before the timer surfaces its own
message.  (State effects a late-completing operation would apply after the
race are outside the model.) -/
def raceOutcome {α : Type} (op : OpSpec α) (a : AccState) : Except String (AccState × α) :=
  match op with
  | .ok elapsed effect =>
    if elapsed < OPERATION_TIMEOUT then .ok (effect a) else .error "Operation timed out"
  | .fail elapsed msg =>
    .error (if elapsed < OPERATION_TIMEOUT then msg else "Operation timed out")
  | .hang => .error "Operation timed out"

/-- Source `safeDeviceOperation(operation, defaultValue)`.  Returns the new
accessory state, the outcome delivered to the caller (always `.ok` because
the catch-all absorbs every failure), and whether `operation()` was invoked
at all.  The guard returns the default immediately when offline, or when
`consecutiveTimeouts >= 3` and the last connection attempt is under 5 s old;
a successful race resets `consecutiveTimeouts`; a failed race is routed to
`handleDeviceError` and yields the default. -/
def safeDeviceOperation {α : Type} (a : AccState) (now : ℕ) (op : OpSpec α)
    (defaultValue : α) : AccState × Except String α × Bool :=
  if a.state.isOnline = false ∨
      (3 ≤ a.state.consecutiveTimeouts ∧ now - a.state.lastConnectionAttempt < 5000) then
    (a, .ok defaultValue, false)
  else
    match raceOutcome op a with
    | .ok (a1, v) =>
      ({ a1 with state := { a1.state with consecutiveTimeouts := 0 } }, .ok v, true)
    | .error msg => (handleDeviceError a msg, .ok defaultValue, true)

/-- How the `device.get({schema: true})` promise inside `refreshState`
settles: with a raw reply, or with a rejection message. -/
inductive GetOutcome where
  | ok (response : TuyaResponse)
  | fail (msg : String)

/-- The catch block of `refreshState`: record `lastError`, then classify the
error. -/
def refreshCatch (a : AccState) (msg : String) : AccState :=
  handleDeviceError { a with state := { a.state with lastError := some msg } } msg

/-- Source `refreshState()`.  Skips when offline with retries exhausted, or when
the cache is still fresh.  Otherwise performs the protocol `get`; an invalid
reply raises `'Invalid device response format'` inside the try, so both a
rejected `get` and an invalid reply land in the catch (`refreshCatch`).  A
valid reply is decoded with `parseDpsValue` (falling back to re-encoded
cached values) into a full replacement of the state record, then
`handleDeviceConnected` runs.  The second component records the exception
propagated to the caller: the catch-all means every branch returns `.ok`.
The reconnecting flag passed to the validator is
`this.state.consecutiveTimeouts > 0`. -/
def refreshState (a : AccState) (now : ℕ) (g : GetOutcome) :
    AccState × Except String Unit :=
  if a.state.isOnline = false ∧ MAX_RETRIES ≤ a.state.retryCount then (a, .ok ())
  else if isCacheValid a.state now then (a, .ok ())
  else
    match g with
    | .fail msg => (refreshCatch a msg, .ok ())
    | .ok (.withDps dps) =>
      if isValidResponse (.withDps dps) (decide (0 < a.state.consecutiveTimeouts)) then
        let fb53 : ℚ :=
          if a.state.fanSpeed = 0 then 1 else ((encodeFanSpeed a.state.fanSpeed : ℤ) : ℚ)
        let fb22 : ℚ :=
          if a.state.lightBrightness = 0 then 10
          else ((encodeBrightness a.state.lightBrightness : ℤ) : ℚ)
        let fanSpeed := (parseDpsValue dps "53" (.n fb53)).getN fb53
        let brightness := (parseDpsValue dps "22" (.n fb22)).getN fb22
        let s1 : DeviceState :=
          { a.state with
            fanActive := (parseDpsValue dps "51" (.b a.state.fanActive)).getB a.state.fanActive
            fanSpeed := decodeFanSpeed fanSpeed
            lightOn := (parseDpsValue dps "20" (.b a.state.lightOn)).getB a.state.lightOn
            lightBrightness := decodeBrightness brightness
            lastUpdate := now
            isOnline := true
            retryCount := 0
            lastError := none }
        (handleDeviceConnected { a with state := s1 }, .ok ())
      else (refreshCatch a "Invalid device response format", .ok ())
    | .ok _ =>
      -- `isValidResponse` is false for a non-object reply and for a reply
      -- without a dps object, so the source throws the same format error.
      (refreshCatch a "Invalid device response format", .ok ())

/-- How the `device.set(...)` promise inside a setter settles. -/
inductive WriteOut where
  | ok (elapsed : ℕ)
  | fail (elapsed : ℕ) (msg : String)
  | hang

/-- Whether a write outcome is a failure (rejection or never completing). -/
def WriteOut.isFailure : WriteOut → Bool
  | .ok _ => false
  | .fail _ _ => true
  | .hang => true

/-- Build the guarded operation a setter passes to `safeDeviceOperation`: on
a successful write the closure continues with the given optimistic state
mutation. -/
def writeOp (w : WriteOut) (mutate : AccState → AccState) : OpSpec Unit :=
  match w with
  | .ok e => .ok e (fun b => (mutate b, ()))
  | .fail e m => .fail e m
  | .hang => .hang

/-- Source `setFanActive(value)`: guard a write of dp 51; on success set
`fanActive := (value === 1)` and refresh `lastUpdate`; the catch block
(re-apply the optimistic update, rethrow) is kept although
`safeDeviceOperation` never throws. -/
def setFanActive (a : AccState) (now : ℕ) (value : ℤ) (w : WriteOut) :
    AccState × Except String Unit :=
  let r := safeDeviceOperation a now
    (writeOp w (fun b =>
      { b with state := { b.state with fanActive := decide (value = 1), lastUpdate := now } }))
    ()
  match r.2.1 with
  | .ok _ => (r.1, .ok ())
  | .error e =>
    ({ r.1 with state := { r.1.state with fanActive := decide (value = 1) } }, .error e)

/-- Source `setFanSpeed(value)`: guard a write of dp 53 (the wire value is
`encodeFanSpeed value`); on success set `fanSpeed := value` and refresh
`lastUpdate`; dead catch kept as in `setFanActive`. -/
def setFanSpeed (a : AccState) (now : ℕ) (value : ℚ) (w : WriteOut) :
    AccState × Except String Unit :=
  let r := safeDeviceOperation a now
    (writeOp w (fun b =>
      { b with state := { b.state with fanSpeed := value, lastUpdate := now } }))
    ()
  match r.2.1 with
  | .ok _ => (r.1, .ok ())
  | .error e =>
    ({ r.1 with state := { r.1.state with fanSpeed := value } }, .error e)

/-- Source `setLightOn(value)`: guard a write of dp 20; on success set
`lightOn := value` and refresh `lastUpdate`; dead catch kept. -/
def setLightOn (a : AccState) (now : ℕ) (value : Bool) (w : WriteOut) :
    AccState × Except String Unit :=
  let r := safeDeviceOperation a now
    (writeOp w (fun b =>
      { b with state := { b.state with lightOn := value, lastUpdate := now } }))
    ()
  match r.2.1 with
  | .ok _ => (r.1, .ok ())
  | .error e =>
    ({ r.1 with state := { r.1.state with lightOn := value } }, .error e)

/-- Source `setLightBrightness(value)`: guard a write of dp 22 (the wire value is
`encodeBrightness value`); on success set `lightBrightness := value` and
refresh `lastUpdate`; dead catch kept. -/
def setLightBrightness (a : AccState) (now : ℕ) (value : ℚ) (w : WriteOut) :
    AccState × Except String Unit :=
  let r := safeDeviceOperation a now
    (writeOp w (fun b =>
      { b with state := { b.state with lightBrightness := value, lastUpdate := now } }))
    ()
  match r.2.1 with
  | .ok _ => (r.1, .ok ())
  | .error e =>
    ({ r.1 with state := { r.1.state with lightBrightness := value } }, .error e)

/-- Source `getFanActive()`.  Returns the new accessory state, the characteristic
value, and whether any protocol-client call was made.  A fresh cache or an
offline state short-circuits to the cached value with no network activity;
otherwise the guard runs `refreshState` (taking `elapsed` ms, observing the
get outcome `g`) and the refreshed cached value is returned. -/
def getFanActive (a : AccState) (now : ℕ) (g : GetOutcome) (elapsed : ℕ) :
    AccState × ℤ × Bool :=
  if isCacheValid a.state now = true ∨ a.state.isOnline = false then
    (a, if a.state.fanActive then 1 else 0, false)
  else
    let dflt : ℤ := if a.state.fanActive then 1 else 0
    let r := safeDeviceOperation a now
      (.ok elapsed (fun b =>
        let b1 := (refreshState b now g).1
        (b1, if b1.state.fanActive then (1 : ℤ) else 0)))
      dflt
    (r.1, (match r.2.1 with | .ok v => v | .error _ => dflt), r.2.2)

/-- Source `getFanSpeed()`: same shape as `getFanActive` over the cached
`fanSpeed` percentage. -/
def getFanSpeed (a : AccState) (now : ℕ) (g : GetOutcome) (elapsed : ℕ) :
    AccState × ℚ × Bool :=
  if isCacheValid a.state now = true ∨ a.state.isOnline = false then
    (a, a.state.fanSpeed, false)
  else
    let r := safeDeviceOperation a now
      (.ok elapsed (fun b =>
        let b1 := (refreshState b now g).1
        (b1, b1.state.fanSpeed)))
      a.state.fanSpeed
    (r.1, (match r.2.1 with | .ok v => v | .error _ => a.state.fanSpeed), r.2.2)

/-- Source `getLightOn()`: same shape over the cached `lightOn` flag. -/
def getLightOn (a : AccState) (now : ℕ) (g : GetOutcome) (elapsed : ℕ) :
    AccState × Bool × Bool :=
  if isCacheValid a.state now = true ∨ a.state.isOnline = false then
    (a, a.state.lightOn, false)
  else
    let r := safeDeviceOperation a now
      (.ok elapsed (fun b =>
        let b1 := (refreshState b now g).1
        (b1, b1.state.lightOn)))
      a.state.lightOn
    (r.1, (match r.2.1 with | .ok v => v | .error _ => a.state.lightOn), r.2.2)

/-- Source `getLightBrightness()`: same shape over the cached `lightBrightness`
percentage. -/
def getLightBrightness (a : AccState) (now : ℕ) (g : GetOutcome) (elapsed : ℕ) :
    AccState × ℚ × Bool :=
  if isCacheValid a.state now = true ∨ a.state.isOnline = false then
    (a, a.state.lightBrightness, false)
  else
    let r := safeDeviceOperation a now
      (.ok elapsed (fun b =>
        let b1 := (refreshState b now g).1
        (b1, b1.state.lightBrightness)))
      a.state.lightBrightness
    (r.1, (match r.2.1 with | .ok v => v | .error _ => a.state.lightBrightness), r.2.2)

section Theorems

/-- Claim C10: `isValidResponse` accepts a reply whose `dps` is an empty
object for both values of the reconnecting flag — the `every`-check over the
initialization-only codes is vacuously true on an empty key set — even
though none of the four meaningful codes (51, 53, 20, 22) is present. -/
theorem isValidResponse_empty_dps :
    isValidResponse (.withDps []) true = true ∧
    isValidResponse (.withDps []) false = true ∧
    ([] : Dps).lookup "51" = none ∧ ([] : Dps).lookup "53" = none ∧
    ([] : Dps).lookup "20" = none ∧ ([] : Dps).lookup "22" = none := by
  decide

/-- Claim C4: for every native fan-speed integer v in [1,6],
`encodeFanSpeed (decodeFanSpeed v) = v` and `decodeFanSpeed v ∈ [0,100]`,
and for every native brightness integer n in [10,1000],
`encodeBrightness (decodeBrightness n) = n` and
`decodeBrightness n ∈ [0,100]`. -/
theorem codec_roundtrip (v n : ℤ) (hv1 : 1 ≤ v) (hv6 : v ≤ 6)
    (hn1 : 10 ≤ n) (hn2 : n ≤ 1000) :
    encodeFanSpeed (decodeFanSpeed (v : ℚ)) = v ∧
    0 ≤ decodeFanSpeed (v : ℚ) ∧ decodeFanSpeed (v : ℚ) ≤ 100 ∧
    encodeBrightness (decodeBrightness (n : ℚ)) = n ∧
    0 ≤ decodeBrightness (n : ℚ) ∧ decodeBrightness (n : ℚ) ≤ 100 := by
  have hv1Q : (1 : ℚ) ≤ (v : ℚ) := by exact_mod_cast hv1
  have hv6Q : (v : ℚ) ≤ 6 := by exact_mod_cast hv6
  have hn1Q : (10 : ℚ) ≤ (n : ℚ) := by exact_mod_cast hn1
  have hn2Q : (n : ℚ) ≤ 1000 := by exact_mod_cast hn2
  have hhalf : ⌊(1/2 : ℚ)⌋ = 0 := by
    rw [Int.floor_eq_zero_iff]
    constructor <;> norm_num
  refine ⟨?_, ?_, ?_, ?_, ?_, ?_⟩
  · simp only [encodeFanSpeed, decodeFanSpeed, jsRound]
    have h : ((v : ℚ) - 1) / 5 * 100 / 100 * 5 + 1/2 = ((v - 1 : ℤ) : ℚ) + 1/2 := by
      push_cast
      ring
    rw [h, Int.floor_int_add, hhalf]
    ring
  · have h : decodeFanSpeed (v : ℚ) = ((v : ℚ) - 1) * 20 := by
      rw [decodeFanSpeed]
      ring
    rw [h]
    nlinarith
  · have h : decodeFanSpeed (v : ℚ) = ((v : ℚ) - 1) * 20 := by
      rw [decodeFanSpeed]
      ring
    rw [h]
    nlinarith
  · simp only [encodeBrightness, decodeBrightness, jsRound]
    have h : ((n : ℚ) - 10) / 990 * 100 / 100 * 990 + 1/2 = ((n - 10 : ℤ) : ℚ) + 1/2 := by
      push_cast
      ring
    rw [h, Int.floor_int_add, hhalf]
    ring
  · have h : decodeBrightness (n : ℚ) = ((n : ℚ) - 10) * (10/99) := by
      rw [decodeBrightness]
      ring
    rw [h]
    nlinarith
  · have h : decodeBrightness (n : ℚ) = ((n : ℚ) - 10) * (10/99) := by
      rw [decodeBrightness]
      ring
    rw [h]
    nlinarith

/-- Witness for C4 at the concrete native values v = 4, n = 505. -/
theorem codec_roundtrip_witness :
    encodeFanSpeed (decodeFanSpeed ((4 : ℤ) : ℚ)) = 4 ∧
    0 ≤ decodeFanSpeed ((4 : ℤ) : ℚ) ∧ decodeFanSpeed ((4 : ℤ) : ℚ) ≤ 100 ∧
    encodeBrightness (decodeBrightness ((505 : ℤ) : ℚ)) = 505 ∧
    0 ≤ decodeBrightness ((505 : ℤ) : ℚ) ∧ decodeBrightness ((505 : ℤ) : ℚ) ≤ 100 :=
  codec_roundtrip 4 505 (by norm_num) (by norm_num) (by norm_num) (by norm_num)

/-- Claim C8: `parseDpsValue` returns the fallback when the key is absent;
for keys 51 and 20 a strict `=== true` boolean coercion; for key 53 the
numeric value clamped to [1,6] (1 if non-numeric); for key 22 the numeric
value clamped to [10,1000] (10 if non-numeric). -/
theorem parseDpsValue_spec (dps : Dps) (key : String) (fallback : DpVal) :
    (dps.lookup key = none → parseDpsValue dps key fallback = fallback) ∧
    (∀ v, dps.lookup key = some v → (key = "51" ∨ key = "20") →
      ((v = DpVal.b true → parseDpsValue dps key fallback = .b true) ∧
       (v ≠ DpVal.b true → parseDpsValue dps key fallback = .b false))) ∧
    (∀ x : ℚ, dps.lookup key = some (.n x) → key = "53" →
      ∃ r : ℚ, parseDpsValue dps key fallback = .n r ∧ 1 ≤ r ∧ r ≤ 6 ∧
        (1 ≤ x → x ≤ 6 → r = x) ∧ (x ≤ 1 → r = 1) ∧ (6 ≤ x → r = 6)) ∧
    (∀ v, dps.lookup key = some v → key = "53" → (∀ x : ℚ, v ≠ .n x) →
      parseDpsValue dps key fallback = .n 1) ∧
    (∀ x : ℚ, dps.lookup key = some (.n x) → key = "22" →
      ∃ r : ℚ, parseDpsValue dps key fallback = .n r ∧ 10 ≤ r ∧ r ≤ 1000 ∧
        (10 ≤ x → x ≤ 1000 → r = x) ∧ (x ≤ 10 → r = 10) ∧ (1000 ≤ x → r = 1000)) ∧
    (∀ v, dps.lookup key = some v → key = "22" → (∀ x : ℚ, v ≠ .n x) →
      parseDpsValue dps key fallback = .n 10) := by
  refine ⟨?_, ?_, ?_, ?_, ?_, ?_⟩
  · intro h
    simp [parseDpsValue, h]
  · intro v hv hkey
    constructor
    · intro htrue
      subst htrue
      rcases hkey with h | h <;> subst h <;> simp [parseDpsValue, hv]
    · intro hne
      rcases hkey with h | h <;> subst h <;> simp [parseDpsValue, hv, hne]
  · intro x hv hkey
    subst hkey
    refine ⟨max 1 (min 6 x), by simp [parseDpsValue, hv], le_max_left _ _,
      max_le (by norm_num) (min_le_left _ _), ?_, ?_, ?_⟩
    · intro h1 h6
      rw [min_eq_right h6, max_eq_right h1]
    · intro h1
      rw [min_eq_right (h1.trans (by norm_num)), max_eq_left h1]
    · intro h6
      rw [min_eq_left h6, max_eq_right (by norm_num)]
  · intro v hv hkey hnn
    subst hkey
    cases v with
    | b x => simp [parseDpsValue, hv]
    | n x => exact absurd rfl (hnn x)
    | s x => simp [parseDpsValue, hv]
    | null => simp [parseDpsValue, hv]
  · intro x hv hkey
    subst hkey
    refine ⟨max 10 (min 1000 x), by simp [parseDpsValue, hv], le_max_left _ _,
      max_le (by norm_num) (min_le_left _ _), ?_, ?_, ?_⟩
    · intro h1 h6
      rw [min_eq_right h6, max_eq_right h1]
    · intro h1
      rw [min_eq_right (h1.trans (by norm_num)), max_eq_left h1]
    · intro h6
      rw [min_eq_left h6, max_eq_right (by norm_num)]
  · intro v hv hkey hnn
    subst hkey
    cases v with
    | b x => simp [parseDpsValue, hv]
    | n x => exact absurd rfl (hnn x)
    | s x => simp [parseDpsValue, hv]
    | null => simp [parseDpsValue, hv]

/-- Witness for C8: an out-of-range speed value 9 under key 53 is clamped. -/
theorem parseDpsValue_spec_witness :
    ∃ r : ℚ, parseDpsValue [("53", DpVal.n 9)] "53" DpVal.null = .n r ∧ 1 ≤ r ∧ r ≤ 6 ∧
      (1 ≤ (9 : ℚ) → (9 : ℚ) ≤ 6 → r = 9) ∧ ((9 : ℚ) ≤ 1 → r = 1) ∧ (6 ≤ (9 : ℚ) → r = 6) :=
  (parseDpsValue_spec [("53", DpVal.n 9)] "53" DpVal.null).2.2.1 9 rfl rfl

/-- Claim C9: when the cache is fresh (`now - lastUpdate < 500` ms) or the
device is offline, each of the four getters returns the cached
`DeviceState` value immediately, leaves the state untouched, and performs no
protocol-client call. -/
theorem getters_cache_hit (a : AccState) (now : ℕ) (g : GetOutcome) (e : ℕ)
    (h : isCacheValid a.state now = true ∨ a.state.isOnline = false) :
    getFanActive a now g e = (a, if a.state.fanActive then 1 else 0, false) ∧
    getFanSpeed a now g e = (a, a.state.fanSpeed, false) ∧
    getLightOn a now g e = (a, a.state.lightOn, false) ∧
    getLightBrightness a now g e = (a, a.state.lightBrightness, false) := by
  refine ⟨?_, ?_, ?_, ?_⟩
  · rw [getFanActive, if_pos h]
  · rw [getFanSpeed, if_pos h]
  · rw [getLightOn, if_pos h]
  · rw [getLightBrightness, if_pos h]

/-- Witness for C9 at the freshly-constructed accessory (cache age 0). -/
theorem getters_cache_hit_witness :
    getFanActive initialAcc 0 (.fail "x") 0 =
      (initialAcc, if initialAcc.state.fanActive then 1 else 0, false) ∧
    getFanSpeed initialAcc 0 (.fail "x") 0 = (initialAcc, initialAcc.state.fanSpeed, false) ∧
    getLightOn initialAcc 0 (.fail "x") 0 = (initialAcc, initialAcc.state.lightOn, false) ∧
    getLightBrightness initialAcc 0 (.fail "x") 0 =
      (initialAcc, initialAcc.state.lightBrightness, false) :=
  getters_cache_hit initialAcc 0 (.fail "x") 0 (Or.inl (by decide))

/-- Claim C6: the operation guard `safeDeviceOperation` never propagates an
exception; it short-circuits to the default (without invoking the
operation) when offline or when `consecutiveTimeouts ≥ 3` with a connection
attempt under 5 s old; otherwise it races the operation against the 1 s
timer, resetting `consecutiveTimeouts` and returning the result on success,
and routing the failure to `handleDeviceError` and returning the default on
rejection or timeout. -/
theorem safeDeviceOperation_spec {α : Type} (a : AccState) (now : ℕ) (op : OpSpec α)
    (d : α) :
    (∃ v, (safeDeviceOperation a now op d).2.1 = Except.ok v) ∧
    ((a.state.isOnline = false ∨
        (3 ≤ a.state.consecutiveTimeouts ∧ now - a.state.lastConnectionAttempt < 5000)) →
      safeDeviceOperation a now op d = (a, .ok d, false)) ∧
    (¬ (a.state.isOnline = false ∨
        (3 ≤ a.state.consecutiveTimeouts ∧ now - a.state.lastConnectionAttempt < 5000)) →
      (∀ e eff, op = .ok e eff → e < OPERATION_TIMEOUT →
        safeDeviceOperation a now op d =
          ({ (eff a).1 with state := { (eff a).1.state with consecutiveTimeouts := 0 } },
            .ok (eff a).2, true)) ∧
      (∀ e m, op = .fail e m →
        safeDeviceOperation a now op d =
          (handleDeviceError a (if e < OPERATION_TIMEOUT then m else "Operation timed out"),
            .ok d, true)) ∧
      ((op = .hang ∨ ∃ e eff, op = .ok e eff ∧ OPERATION_TIMEOUT ≤ e) →
        safeDeviceOperation a now op d =
          (handleDeviceError a "Operation timed out", .ok d, true))) := by
  refine ⟨?_, ?_, ?_⟩
  · unfold safeDeviceOperation
    split
    · exact ⟨d, rfl⟩
    · cases hr : raceOutcome op a with
      | ok p =>
        obtain ⟨a1, v⟩ := p
        exact ⟨v, by simp [hr]⟩
      | error m => exact ⟨d, by simp [hr]⟩
  · intro h
    rw [safeDeviceOperation, if_pos h]
  · intro h
    refine ⟨?_, ?_, ?_⟩
    · intro e eff hop he
      subst hop
      rw [safeDeviceOperation, if_neg h]
      simp [raceOutcome, he]
    · intro e m hop
      subst hop
      rw [safeDeviceOperation, if_neg h]
      simp [raceOutcome]
    · intro hop
      rcases hop with hop | ⟨e, eff, hop, he⟩ <;> subst hop <;>
        rw [safeDeviceOperation, if_neg h]
      · simp [raceOutcome]
      · simp [raceOutcome, Nat.not_lt.mpr he]

/-- An accessory state that is offline (used as a concrete guard input). -/
def offlineAcc : AccState :=
  { initialAcc with state := { initialDeviceState with isOnline := false } }

/-- Witness for C6: the offline short-circuit at a concrete state. -/
theorem safeDeviceOperation_spec_witness :
    safeDeviceOperation offlineAcc 0 (OpSpec.hang : OpSpec ℕ) 7 = (offlineAcc, .ok 7, false) :=
  (safeDeviceOperation_spec offlineAcc 0 OpSpec.hang 7).2.1 (Or.inl rfl)

/-- Claim C3: while offline, `scheduleRetry` arms the retry timer with
delay `min(BASE_RETRY_DELAY * 2^retryCount, MAX_RETRY_DELAY)`; starting from
`retryCount = 0` the successive scheduled delays are exactly 5000 ms,
10000 ms and 20000 ms, each firing incrementing `retryCount`; once
`retryCount` has reached 3, the next `scheduleRetry` resets it to 0 and arms
a single retry at exactly 300000 ms. -/
theorem scheduleRetry_spec (a : AccState) (hoff : a.state.isOnline = false) :
    (a.state.retryCount < MAX_RETRIES →
      (scheduleRetry a).retryTimer =
        some (min (BASE_RETRY_DELAY * 2 ^ a.state.retryCount) MAX_RETRY_DELAY) ∧
      (retryTimerFire (scheduleRetry a)).state.retryCount = a.state.retryCount + 1) ∧
    (MAX_RETRIES ≤ a.state.retryCount →
      (scheduleRetry a).retryTimer = some MAX_RETRY_DELAY ∧
      (scheduleRetry a).state.retryCount = 0) ∧
    (a.state.retryCount = 0 →
      (scheduleRetry a).retryTimer = some 5000 ∧
      (scheduleRetry (retryTimerFire (scheduleRetry a))).retryTimer = some 10000 ∧
      (scheduleRetry (retryTimerFire (scheduleRetry (retryTimerFire
        (scheduleRetry a))))).retryTimer = some 20000 ∧
      (retryTimerFire (scheduleRetry (retryTimerFire (scheduleRetry (retryTimerFire
        (scheduleRetry a)))))).state.retryCount = 3 ∧
      (scheduleRetry (retryTimerFire (scheduleRetry (retryTimerFire (scheduleRetry
        (retryTimerFire (scheduleRetry a))))))).retryTimer = some MAX_RETRY_DELAY ∧
      (scheduleRetry (retryTimerFire (scheduleRetry (retryTimerFire (scheduleRetry
        (retryTimerFire (scheduleRetry a))))))).state.retryCount = 0) := by
  refine ⟨?_, ?_, ?_⟩
  · intro h
    rw [scheduleRetry, if_neg (Nat.not_le.mpr h)]
    simp [retryTimerFire]
  · intro h
    rw [scheduleRetry, if_pos h]
    simp
  · intro h0
    simp [scheduleRetry, retryTimerFire, h0, MAX_RETRIES, BASE_RETRY_DELAY, MAX_RETRY_DELAY]

/-- Witness for C3 at a concrete offline state with `retryCount = 0`. -/
theorem scheduleRetry_spec_witness :
    (scheduleRetry offlineAcc).retryTimer = some 5000 ∧
    (scheduleRetry (retryTimerFire (scheduleRetry offlineAcc))).retryTimer = some 10000 ∧
    (scheduleRetry (retryTimerFire (scheduleRetry (retryTimerFire
      (scheduleRetry offlineAcc))))).retryTimer = some 20000 ∧
    (retryTimerFire (scheduleRetry (retryTimerFire (scheduleRetry (retryTimerFire
      (scheduleRetry offlineAcc)))))).state.retryCount = 3 ∧
    (scheduleRetry (retryTimerFire (scheduleRetry (retryTimerFire (scheduleRetry
      (retryTimerFire (scheduleRetry offlineAcc))))))).retryTimer = some MAX_RETRY_DELAY ∧
    (scheduleRetry (retryTimerFire (scheduleRetry (retryTimerFire (scheduleRetry
      (retryTimerFire (scheduleRetry offlineAcc))))))).state.retryCount = 0 :=
  (scheduleRetry_spec offlineAcc rfl).2.2 rfl

/-- Source `scheduleRetry` only touches `retryCount` and the timer: every other
observable is preserved. -/
lemma scheduleRetry_preserves (a : AccState) :
    (scheduleRetry a).state.isOnline = a.state.isOnline ∧
    (scheduleRetry a).state.consecutiveTimeouts = a.state.consecutiveTimeouts ∧
    (scheduleRetry a).offlineNotices = a.offlineNotices ∧
    (scheduleRetry a).state.fanActive = a.state.fanActive ∧
    (scheduleRetry a).state.fanSpeed = a.state.fanSpeed ∧
    (scheduleRetry a).state.lightOn = a.state.lightOn ∧
    (scheduleRetry a).state.lightBrightness = a.state.lightBrightness := by
  rw [scheduleRetry]
  split <;> simp

/-- Source `handleDeviceError` (via `handleDeviceDisconnected` and `scheduleRetry`)
never changes the cached values or `consecutiveTimeouts`. -/
lemma handleDeviceError_preserves (a : AccState) (m : String) :
    (handleDeviceError a m).state.consecutiveTimeouts = a.state.consecutiveTimeouts ∧
    (handleDeviceError a m).state.fanActive = a.state.fanActive ∧
    (handleDeviceError a m).state.fanSpeed = a.state.fanSpeed ∧
    (handleDeviceError a m).state.lightOn = a.state.lightOn ∧
    (handleDeviceError a m).state.lightBrightness = a.state.lightBrightness := by
  rw [handleDeviceError]
  split
  · rw [handleDeviceDisconnected]
    split
    · obtain ⟨-, h2, -, h4, h5, h6, h7⟩ := scheduleRetry_preserves
        { a with
          state := { a.state with isOnline := false }
          offlineNotices := a.offlineNotices + 1 }
      rw [h2, h4, h5, h6, h7]
      simp
    · simp
  · simp

/-- Claim C2, corrected: in the embedded code the online → offline
transition is immediate on the FIRST classified connection error (not on
`consecutiveTimeouts` reaching 3 — error handling never increments that
counter); the offline notification fires exactly once on the transition and
further connection errors while already offline are no-ops. -/
theorem connectionError_offline_once (a : AccState) (msg msg2 : String)
    (hmsg : isConnectionErrorMsg msg = true) (hmsg2 : isConnectionErrorMsg msg2 = true)
    (hon : a.state.isOnline = true) :
    (handleDeviceError a msg).state.isOnline = false ∧
    (handleDeviceError a msg).offlineNotices = a.offlineNotices + 1 ∧
    (handleDeviceError a msg).state.consecutiveTimeouts = a.state.consecutiveTimeouts ∧
    handleDeviceError (handleDeviceError a msg) msg2 = handleDeviceError a msg := by
  have key : handleDeviceError a msg =
      scheduleRetry
        { a with
          state := { a.state with isOnline := false }
          offlineNotices := a.offlineNotices + 1 } := by
    rw [handleDeviceError, if_pos hmsg, handleDeviceDisconnected, if_pos hon]
  obtain ⟨p1, p2, p3, -⟩ := scheduleRetry_preserves
    { a with
      state := { a.state with isOnline := false }
      offlineNotices := a.offlineNotices + 1 }
  have hoff1 : (handleDeviceError a msg).state.isOnline = false := by
    rw [key, p1]
  refine ⟨hoff1, ?_, ?_, ?_⟩
  · rw [key, p3]
  · rw [key, p2]
  · rw [handleDeviceError, if_pos hmsg2, handleDeviceDisconnected, if_neg (by simp [hoff1])]

/-- Witness for C2 (amended): two consecutive ETIMEDOUT errors from the
initial online state. -/
theorem connectionError_offline_once_witness :
    (handleDeviceError initialAcc "ETIMEDOUT").state.isOnline = false ∧
    (handleDeviceError initialAcc "ETIMEDOUT").offlineNotices =
      initialAcc.offlineNotices + 1 ∧
    (handleDeviceError initialAcc "ETIMEDOUT").state.consecutiveTimeouts =
      initialAcc.state.consecutiveTimeouts ∧
    handleDeviceError (handleDeviceError initialAcc "ETIMEDOUT") "ETIMEDOUT" =
      handleDeviceError initialAcc "ETIMEDOUT" :=
  connectionError_offline_once initialAcc "ETIMEDOUT" "ETIMEDOUT" (by decide) (by decide) rfl

/-- Counterexample to Claim C2 as stated: a single classified connection
error already drives the initial (online) state offline while
`consecutiveTimeouts` is 0 — the counter never reaches the claimed
threshold 3 (no code path increments it), yet `isOnline` is already
false. -/
theorem firstConnectionError_goes_offline :
    (handleDeviceError initialAcc "ETIMEDOUT").state.isOnline = false ∧
    (handleDeviceError initialAcc "ETIMEDOUT").state.consecutiveTimeouts = 0 ∧
    (handleDeviceError initialAcc "ETIMEDOUT").offlineNotices = 1 := by
  decide

/-- Claim C7 (the code side of the bug report): an operation that exceeds
the 1 s budget inside `safeDeviceOperation` is raced out and handled
(`.2.2 = true` shows the operation was actually started), but
`consecutiveTimeouts` afterwards equals its prior value 0 — nothing in the
embedded code ever increments it, so the timeout is not counted. -/
theorem timeout_not_counted :
    (safeDeviceOperation initialAcc 0 (OpSpec.hang : OpSpec Unit) ()).2.2 = true ∧
    (safeDeviceOperation initialAcc 0 (OpSpec.hang : OpSpec Unit) ()).1.state.consecutiveTimeouts
      = 0 ∧
    initialAcc.state.consecutiveTimeouts = 0 := by
  decide

/-- The guard delivers `.ok` to its caller in every branch (the catch-all). -/
lemma safeDeviceOperation_ok {α : Type} (a : AccState) (now : ℕ) (op : OpSpec α) (d : α) :
    ∃ v, (safeDeviceOperation a now op d).2.1 = Except.ok v := by
  rw [safeDeviceOperation]
  split
  · exact ⟨d, rfl⟩
  · cases hr : raceOutcome op a with
    | ok p =>
      obtain ⟨a1, v⟩ := p
      exact ⟨v, by simp [hr]⟩
    | error m => exact ⟨d, by simp [hr]⟩

/-- After a failed (rejected or hung) operation, the guard's resulting state
is either untouched (short-circuit) or the error handler's output. -/
lemma safeDeviceOperation_failure_state {α : Type} (a : AccState) (now : ℕ) (op : OpSpec α)
    (d : α) (hop : op.isFailure = true) :
    (safeDeviceOperation a now op d).1 = a ∨
    ∃ m, (safeDeviceOperation a now op d).1 = handleDeviceError a m := by
  rw [safeDeviceOperation]
  split
  · exact Or.inl rfl
  · cases op with
    | ok e eff => simp [OpSpec.isFailure] at hop
    | fail e m =>
      exact Or.inr ⟨if e < OPERATION_TIMEOUT then m else "Operation timed out",
        by simp [raceOutcome]⟩
    | hang => exact Or.inr ⟨"Operation timed out", by simp [raceOutcome]⟩

/-- A failed write preserves every cached value field through the guard. -/
lemma safeDeviceOperation_failure_fields {α : Type} (a : AccState) (now : ℕ) (op : OpSpec α)
    (d : α) (hop : op.isFailure = true) :
    (safeDeviceOperation a now op d).1.state.fanActive = a.state.fanActive ∧
    (safeDeviceOperation a now op d).1.state.fanSpeed = a.state.fanSpeed ∧
    (safeDeviceOperation a now op d).1.state.lightOn = a.state.lightOn ∧
    (safeDeviceOperation a now op d).1.state.lightBrightness = a.state.lightBrightness := by
  rcases safeDeviceOperation_failure_state a now op d hop with h | ⟨m, h⟩
  · rw [h]
    exact ⟨rfl, rfl, rfl, rfl⟩
  · rw [h]
    obtain ⟨-, h2, h3, h4, h5⟩ := handleDeviceError_preserves a m
    exact ⟨h2, h3, h4, h5⟩

/-- Source `writeOp` preserves failure status. -/
lemma writeOp_isFailure (w : WriteOut) (f : AccState → AccState) :
    (writeOp w f).isFailure = w.isFailure := by
  cases w <;> rfl

/-- Claim C1, corrected: no setter can raise — `safeDeviceOperation`
swallows every failure, so the catch/rethrow blocks of the setters are dead
code — and when the underlying write fails or never completes, the cached
`DeviceState` field is NOT updated to the requested value; it keeps its
previous value (the optimistic assignment sits after the awaited write
inside the guarded closure). -/
theorem setters_never_raise (a : AccState) (now : ℕ) (v1 : ℤ) (v2 : ℚ) (v3 : Bool)
    (v4 : ℚ) (w : WriteOut) :
    (setFanActive a now v1 w).2 = Except.ok () ∧
    (setFanSpeed a now v2 w).2 = Except.ok () ∧
    (setLightOn a now v3 w).2 = Except.ok () ∧
    (setLightBrightness a now v4 w).2 = Except.ok () ∧
    (w.isFailure = true →
      (setFanActive a now v1 w).1.state.fanActive = a.state.fanActive ∧
      (setFanSpeed a now v2 w).1.state.fanSpeed = a.state.fanSpeed ∧
      (setLightOn a now v3 w).1.state.lightOn = a.state.lightOn ∧
      (setLightBrightness a now v4 w).1.state.lightBrightness = a.state.lightBrightness) := by
  obtain ⟨r1, h1⟩ := safeDeviceOperation_ok a now
    (writeOp w (fun b =>
      { b with state := { b.state with fanActive := decide (v1 = 1), lastUpdate := now } })) ()
  obtain ⟨r2, h2⟩ := safeDeviceOperation_ok a now
    (writeOp w (fun b =>
      { b with state := { b.state with fanSpeed := v2, lastUpdate := now } })) ()
  obtain ⟨r3, h3⟩ := safeDeviceOperation_ok a now
    (writeOp w (fun b =>
      { b with state := { b.state with lightOn := v3, lastUpdate := now } })) ()
  obtain ⟨r4, h4⟩ := safeDeviceOperation_ok a now
    (writeOp w (fun b =>
      { b with state := { b.state with lightBrightness := v4, lastUpdate := now } })) ()
  refine ⟨?_, ?_, ?_, ?_, ?_⟩
  · rw [setFanActive, h1]
  · rw [setFanSpeed, h2]
  · rw [setLightOn, h3]
  · rw [setLightBrightness, h4]
  · intro hw
    refine ⟨?_, ?_, ?_, ?_⟩
    · rw [setFanActive, h1]
      exact (safeDeviceOperation_failure_fields a now _ ()
        (by rw [writeOp_isFailure, hw])).1
    · rw [setFanSpeed, h2]
      exact (safeDeviceOperation_failure_fields a now _ ()
        (by rw [writeOp_isFailure, hw])).2.1
    · rw [setLightOn, h3]
      exact (safeDeviceOperation_failure_fields a now _ ()
        (by rw [writeOp_isFailure, hw])).2.2.1
    · rw [setLightBrightness, h4]
      exact (safeDeviceOperation_failure_fields a now _ ()
        (by rw [writeOp_isFailure, hw])).2.2.2

/-- Witness for C1 (amended): a rejected dp-51 write at the initial state. -/
theorem setters_never_raise_witness :
    (setFanActive initialAcc 1000 1 (.fail 50 "ECONNREFUSED")).2 = Except.ok () ∧
    (setFanActive initialAcc 1000 1 (.fail 50 "ECONNREFUSED")).1.state.fanActive =
      initialAcc.state.fanActive :=
  ⟨(setters_never_raise initialAcc 1000 1 0 false 0 (.fail 50 "ECONNREFUSED")).1,
   ((setters_never_raise initialAcc 1000 1 0 false 0 (.fail 50 "ECONNREFUSED")).2.2.2.2
     rfl).1⟩

/-- Counterexample to Claim C1 as stated: with a failing underlying write,
`setFanActive 1` completes without raising (result `.ok`), and the cached
`fanActive` stays `false` — neither the raised error nor the optimistic
cache update that the claim asserts occurs. -/
theorem setFanActive_failed_write_cx :
    (setFanActive initialAcc 1000 1 (.fail 50 "ECONNREFUSED")).2 = Except.ok () ∧
    (setFanActive initialAcc 1000 1 (.fail 50 "ECONNREFUSED")).1.state.fanActive = false := by
  exact ⟨rfl, rfl⟩

/-- If every key of a dps object is an initialization-only code, any
non-initialization key is absent. -/
lemma lookup_none_of_init_keys (dps : Dps) (k : String)
    (h : (dpsKeys dps).all (fun key => INIT_DPS.contains key) = true)
    (hk : INIT_DPS.contains k = false) : dps.lookup k = none := by
  induction dps with
  | nil => rfl
  | cons p t ih =>
    obtain ⟨k1, v1⟩ := p
    have h1 : INIT_DPS.contains k1 = true ∧
        (dpsKeys t).all (fun key => INIT_DPS.contains key) = true := by
      simpa [dpsKeys] using h
    have hne : (k == k1) = false := by
      rcases Bool.eq_false_or_eq_true (k == k1) with hb | hb
      · have hkk : k = k1 := beq_iff_eq.mp hb
        subst hkk
        rw [h1.1] at hk
        exact absurd hk (by simp)
      · exact hb
    simpa [List.lookup, hne] using ih h1.2

/-- Source `handleDeviceConnected` is a no-op while already online. -/
lemma handleDeviceConnected_online (b : AccState) (hb : b.state.isOnline = true) :
    handleDeviceConnected b = b := by
  rw [handleDeviceConnected, if_neg]
  simp [hb]

/-- Claim C5, corrected: on a reply carrying only initialization-only codes
while reconnecting (`consecutiveTimeouts > 0`), `refreshState` does not
throw, but it does NOT leave `DeviceState` unchanged and does NOT clear
`consecutiveTimeouts`: it performs a full cache replacement from fallbacks —
`lastUpdate` becomes `now`, `isOnline` becomes true, `retryCount` resets,
`lastError` clears, the on/off values are preserved — while
`consecutiveTimeouts` keeps its previous (non-zero) value. -/
theorem refresh_initOnly_updates (a : AccState) (now : ℕ) (dps : Dps)
    (hct : 0 < a.state.consecutiveTimeouts)
    (hkeys : (dpsKeys dps).all (fun key => INIT_DPS.contains key) = true)
    (hstale : isCacheValid a.state now = false)
    (hskip : ¬ (a.state.isOnline = false ∧ MAX_RETRIES ≤ a.state.retryCount)) :
    (refreshState a now (.ok (.withDps dps))).2 = Except.ok () ∧
    (refreshState a now (.ok (.withDps dps))).1.state.fanActive = a.state.fanActive ∧
    (refreshState a now (.ok (.withDps dps))).1.state.lightOn = a.state.lightOn ∧
    (refreshState a now (.ok (.withDps dps))).1.state.lastUpdate = now ∧
    (refreshState a now (.ok (.withDps dps))).1.state.isOnline = true ∧
    (refreshState a now (.ok (.withDps dps))).1.state.retryCount = 0 ∧
    (refreshState a now (.ok (.withDps dps))).1.state.lastError = none ∧
    (refreshState a now (.ok (.withDps dps))).1.state.consecutiveTimeouts =
      a.state.consecutiveTimeouts := by
  have h51 : dps.lookup "51" = none := lookup_none_of_init_keys dps "51" hkeys (by decide)
  have h20 : dps.lookup "20" = none := lookup_none_of_init_keys dps "20" hkeys (by decide)
  have hval : isValidResponse (.withDps dps) (decide (0 < a.state.consecutiveTimeouts))
      = true := by
    unfold isValidResponse
    rw [decide_eq_true hct]
    simp
  have hres : refreshState a now (.ok (.withDps dps)) =
      (handleDeviceConnected
        { a with state :=
          { a.state with
            fanActive := (parseDpsValue dps "51" (.b a.state.fanActive)).getB
              a.state.fanActive
            fanSpeed := decodeFanSpeed ((parseDpsValue dps "53"
              (.n (if a.state.fanSpeed = 0 then 1
                else ((encodeFanSpeed a.state.fanSpeed : ℤ) : ℚ)))).getN
              (if a.state.fanSpeed = 0 then 1
                else ((encodeFanSpeed a.state.fanSpeed : ℤ) : ℚ)))
            lightOn := (parseDpsValue dps "20" (.b a.state.lightOn)).getB a.state.lightOn
            lightBrightness := decodeBrightness ((parseDpsValue dps "22"
              (.n (if a.state.lightBrightness = 0 then 10
                else ((encodeBrightness a.state.lightBrightness : ℤ) : ℚ)))).getN
              (if a.state.lightBrightness = 0 then 10
                else ((encodeBrightness a.state.lightBrightness : ℤ) : ℚ)))
            lastUpdate := now
            isOnline := true
            retryCount := 0
            lastError := none } }, .ok ()) := by
    rw [refreshState, if_neg hskip, if_neg (by simp [hstale])]
    dsimp only
    rw [if_pos hval]
  rw [hres, handleDeviceConnected_online _ (by simp)]
  refine ⟨rfl, ?_, ?_, rfl, rfl, rfl, rfl, rfl⟩
  · simp [parseDpsValue, h51, DpVal.getB]
  · simp [parseDpsValue, h20, DpVal.getB]

/-- A reconnecting accessory state (`consecutiveTimeouts = 1`, stale
cache). -/
def reconnectingAcc : AccState :=
  { initialAcc with state := { initialDeviceState with consecutiveTimeouts := 1 } }

/-- Witness for C5 (amended) at a concrete reconnecting state and an
initialization-only reply. -/
theorem refresh_initOnly_updates_witness :
    (refreshState reconnectingAcc 1000 (.ok (.withDps [("33", DpVal.n 0)]))).2 =
      Except.ok () ∧
    (refreshState reconnectingAcc 1000
      (.ok (.withDps [("33", DpVal.n 0)]))).1.state.fanActive =
      reconnectingAcc.state.fanActive ∧
    (refreshState reconnectingAcc 1000
      (.ok (.withDps [("33", DpVal.n 0)]))).1.state.lightOn =
      reconnectingAcc.state.lightOn ∧
    (refreshState reconnectingAcc 1000
      (.ok (.withDps [("33", DpVal.n 0)]))).1.state.lastUpdate = 1000 ∧
    (refreshState reconnectingAcc 1000
      (.ok (.withDps [("33", DpVal.n 0)]))).1.state.isOnline = true ∧
    (refreshState reconnectingAcc 1000
      (.ok (.withDps [("33", DpVal.n 0)]))).1.state.retryCount = 0 ∧
    (refreshState reconnectingAcc 1000
      (.ok (.withDps [("33", DpVal.n 0)]))).1.state.lastError = none ∧
    (refreshState reconnectingAcc 1000
      (.ok (.withDps [("33", DpVal.n 0)]))).1.state.consecutiveTimeouts =
      reconnectingAcc.state.consecutiveTimeouts :=
  refresh_initOnly_updates reconnectingAcc 1000 [("33", DpVal.n 0)]
    (by decide) (by decide) (by decide) (by decide)

/-- Counterexample to Claim C5 as stated: at a reconnecting state with
`consecutiveTimeouts = 1` and `lastUpdate = 0`, a reply whose dps carries
only the initialization code 33 makes `refreshState` mutate the state
(`lastUpdate` jumps from 0 to `now` = 1000) and leave `consecutiveTimeouts`
at 1 instead of clearing it to 0. -/
theorem refresh_initOnly_mutates_cx :
    reconnectingAcc.state.lastUpdate = 0 ∧
    (refreshState reconnectingAcc 1000
      (.ok (.withDps [("33", DpVal.n 0)]))).1.state.lastUpdate = 1000 ∧
    reconnectingAcc.state.consecutiveTimeouts = 1 ∧
    (refreshState reconnectingAcc 1000
      (.ok (.withDps [("33", DpVal.n 0)]))).1.state.consecutiveTimeouts = 1 := by
  refine ⟨rfl, ?_, rfl, ?_⟩ <;> rfl

end Theorems

end LocalTuya
